import Mathlib

/-!
Verification of the flash-go job-judging service core, shallowly embedded
from the Go sources: the verdict classifier and metadata parser
(internal/utils), the status ID/description tables (internal/models), the
Redis-backed job store (internal/redis), the isolate executor, and the
worker retry loop (internal/worker).

Machine integers are modelled as Nat/Int with explicit clamping where the
Go standard library clamps; float64 limits are modelled as rationals.
External effects (filesystem, subprocesses, Redis server) are modelled by
explicit environment records supplying the observable results of each
effect, so every definition stays executable.
-/

/-- Whitespace predicate of Go unicode.IsSpace: the Unicode White_Space
code points, used by strings.TrimSpace and strings.Fields. -/
def goIsSpace (c : Char) : Bool :=
  let n := c.toNat
  (9 ≤ n ∧ n ≤ 13) || n = 32 || n = 0x85 || n = 0xA0 || n = 0x1680 ||
  (0x2000 ≤ n ∧ n ≤ 0x200A) || n = 0x2028 || n = 0x2029 || n = 0x202F ||
  n = 0x205F || n = 0x3000

/-- Go strings.TrimSpace: drop White_Space characters from both ends. -/
def trimSpace (s : String) : String :=
  ⟨(((s.data.dropWhile goIsSpace).reverse.dropWhile goIsSpace).reverse)⟩

/-- Go strings.Cut(line, sep) for a one-character separator: split at the
first occurrence, returning none when the separator does not occur. -/
def cutChar (sep : Char) : List Char → Option (List Char × List Char)
  | [] => none
  | c :: cs =>
    if c = sep then some ([], cs)
    else match cutChar sep cs with
      | none => none
      | some (pre, post) => some (c :: pre, post)

/-- Go strings.Fields: maximal runs of non-whitespace characters. -/
def goFields (s : String) : List String :=
  ((s.data.foldr
      (fun c acc =>
        if goIsSpace c then [] :: acc
        else match acc with
          | [] => [[c]]
          | f :: rest => (c :: f) :: rest)
      []).filter (· ≠ [])).map fun l => ⟨l⟩

/-- Decimal value of a digit string (caller checks digits). -/
def digitsToNat (l : List Char) : Nat :=
  l.foldl (fun acc c => 10 * acc + (c.toNat - 48)) 0

/-- Go strconv.ParseUint(s, 10, 64) with the error discarded, as the
metadata parser does: a non-empty all-digit string parses to its value
clamped to the uint64 maximum (Go returns MaxUint64 on range error), and
anything else yields 0 (Go returns 0 on syntax error). -/
def parseUintGo (s : String) : Nat :=
  if s.data ≠ [] ∧ s.data.all (·.isDigit) then
    min (digitsToNat s.data) (2 ^ 64 - 1)
  else 0

/-- Go strconv.Atoi with the error discarded: optional sign, then digits,
clamped to the int64 range on overflow; 0 on syntax error. -/
def parseAtoi (s : String) : Int :=
  match s.data with
  | '-' :: rest =>
    if rest ≠ [] ∧ rest.all (·.isDigit) then
      -(min (digitsToNat rest) (2 ^ 63) : Nat)
    else 0
  | '+' :: rest =>
    if rest ≠ [] ∧ rest.all (·.isDigit) then
      (min (digitsToNat rest) (2 ^ 63 - 1) : Nat)
    else 0
  | l =>
    if l ≠ [] ∧ l.all (·.isDigit) then
      (min (digitsToNat l) (2 ^ 63 - 1) : Nat)
    else 0

/-- Go strconv.ParseFloat with the error discarded, modelled on the plain
decimal literals the isolate metadata file contains: optional sign,
integer digits, optional fraction digits; 0 on anything else. -/
def parseFloatGo (s : String) : ℚ :=
  let core : List Char → ℚ := fun l =>
    match cutChar '.' l with
    | none =>
      if l ≠ [] ∧ l.all (·.isDigit) then (digitsToNat l : ℚ) else 0
    | some (ip, fp) =>
      if ip ≠ [] ∧ ip.all (·.isDigit) ∧ fp.all (·.isDigit) then
        (digitsToNat ip : ℚ) + (digitsToNat fp : ℚ) / (10 ^ fp.length : ℚ)
      else 0
  match s.data with
  | '-' :: rest => -(core rest)
  | '+' :: rest => core rest
  | l => core l

/-- Go strconv.FormatFloat(x, 'g', -1, 64) restricted to the values the
judge passes (the configured limits): exact on integral values, which is
all the defaults are; non-integral rationals fall back to the rational
printer, which no claim evaluates. -/
def formatFloatG (q : ℚ) : String :=
  if q.den = 1 then
    if q.num < 0 then "-" ++ Nat.repr (-q.num).toNat else Nat.repr q.num.toNat
  else toString q

-- ## Data model (internal/models/job.go, internal/core/settings.go)

/-- Status kind constant from internal/models/job.go. -/
def StatusQueued : String := "Queued"

/-- Status kind constant from internal/models/job.go. -/
def StatusProcessing : String := "Processing"

/-- Status kind constant from internal/models/job.go. -/
def StatusAccepted : String := "Accepted"

/-- Status kind constant from internal/models/job.go. -/
def StatusWrongAnswer : String := "WrongAnswer"

/-- Status kind constant from internal/models/job.go. -/
def StatusTimeLimitExceeded : String := "TimeLimitExceeded"

/-- Status kind constant from internal/models/job.go. -/
def StatusCompilationError : String := "CompilationError"

/-- Status kind constant from internal/models/job.go. -/
def StatusRuntimeError : String := "RuntimeError"

/-- Status kind constant from internal/models/job.go. -/
def StatusInternalError : String := "InternalError"

/-- Status kind constant from internal/models/job.go. -/
def StatusExecFormatError : String := "ExecFormatError"

/-- models.JobStatus: kind plus optional runtime-error code. -/
structure JobStatus where
  Kind : String
  RuntimeCode : String := ""
  deriving Repr, DecidableEq

/-- models.JobOutput. Time is float64 seconds (modelled as ℚ), Memory is
uint64 KiB (modelled as Nat), ExitCode is int. -/
structure JobOutput where
  Stdout : String := ""
  Stderr : String := ""
  CompileOutput : String := ""
  Time : ℚ := 0
  Memory : Nat := 0
  ExitCode : Int := 0
  Message : String := ""
  deriving Repr, DecidableEq

/-- models.Language (named JobLanguage here; Lean reserves Language). -/
structure JobLanguage where
  Name : String := ""
  SourceFile : String := ""
  CompileCmd : String := ""
  RunCmd : String := ""
  IsCompiled : Bool := false
  deriving Repr, DecidableEq

/-- models.ExecutionSettings, with the per-tenant maximum fields that
internal/core/settings.go and the isolate executor reference. -/
structure ExecutionSettings where
  CPUTimeLimit : ℚ := 0
  MaxCPUTimeLimit : ℚ := 0
  WallTimeLimit : ℚ := 0
  MaxWallTimeLimit : ℚ := 0
  MemoryLimit : Nat := 0
  MaxMemoryLimit : Nat := 0
  StackLimit : Nat := 0
  MaxStackLimit : Nat := 0
  MaxProcesses : Nat := 0
  MaxFileSize : Nat := 0
  EnableNetwork : Bool := false
  EnablePerProcessAndThreadTimeLimit : Bool := false
  EnablePerProcessAndThreadMemoryLimit : Bool := false
  RedirectStderrToStdout : Bool := false
  deriving Repr, DecidableEq

/-- core.DefaultExecutionSettings from internal/core/settings.go. -/
def DefaultExecutionSettings : ExecutionSettings where
  MaxCPUTimeLimit := 15
  CPUTimeLimit := 5
  WallTimeLimit := 10
  MaxWallTimeLimit := 20
  MemoryLimit := 128000
  MaxMemoryLimit := 2048000
  MaxStackLimit := 512000
  StackLimit := 64000
  MaxProcesses := 60
  MaxFileSize := 1024
  EnableNetwork := false
  EnablePerProcessAndThreadTimeLimit := false
  EnablePerProcessAndThreadMemoryLimit := false
  RedirectStderrToStdout := false

/-- models.Job. Timestamps are int64 nanoseconds. -/
structure Job where
  ID : Nat := 0
  SourceCode : String := ""
  Stdin : String := ""
  ExpectedOutput : String := ""
  Language : JobLanguage := {}
  Settings : ExecutionSettings := {}
  Status : JobStatus := ⟨"", ""⟩
  CreatedAt : Int := 0
  StartedAt : Int := 0
  FinishedAt : Int := 0
  Output : JobOutput := {}
  deriving Repr, DecidableEq

/-- JobStatus.ID from internal/models/job.go: the Judge0-style status ID.
The Go switch is an if-else chain on the kind, with an inner switch on
the runtime code. -/
def JobStatus.ID (s : JobStatus) : Int :=
  if s.Kind = StatusQueued then 1
  else if s.Kind = StatusProcessing then 2
  else if s.Kind = StatusAccepted then 3
  else if s.Kind = StatusWrongAnswer then 4
  else if s.Kind = StatusTimeLimitExceeded then 5
  else if s.Kind = StatusCompilationError then 6
  else if s.Kind = StatusRuntimeError then
    if s.RuntimeCode = "SIGSEGV" then 7
    else if s.RuntimeCode = "SIGXFSZ" then 8
    else if s.RuntimeCode = "SIGFPE" then 9
    else if s.RuntimeCode = "SIGABRT" then 10
    else if s.RuntimeCode = "NZEC" then 11
    else 12
  else if s.Kind = StatusInternalError then 13
  else if s.Kind = StatusExecFormatError then 14
  else 13

/-- JobStatus.Description from internal/models/job.go: the human-readable
status string; the runtime-error case formats "Runtime Error: (<code>)"
unless the code is empty. -/
def JobStatus.Description (s : JobStatus) : String :=
  if s.Kind = StatusQueued then "In Queue"
  else if s.Kind = StatusProcessing then "Processing"
  else if s.Kind = StatusAccepted then "Accepted"
  else if s.Kind = StatusWrongAnswer then "Wrong Answer"
  else if s.Kind = StatusTimeLimitExceeded then "Time Limit Exceeded"
  else if s.Kind = StatusCompilationError then "Compilation Error"
  else if s.Kind = StatusRuntimeError then
    if s.RuntimeCode = "" then "Runtime Error"
    else "Runtime Error: (" ++ s.RuntimeCode ++ ")"
  else if s.Kind = StatusInternalError then "Internal Error"
  else if s.Kind = StatusExecFormatError then "Exec Format Error"
  else "Internal Error"

-- ## Verdict classifier and metadata parser (internal/utils, part_002)

/-- findRuntimeType from the utils package: maps a signal exit code to the
runtime-error status code. -/
def findRuntimeType (exitCode : Int) : JobStatus :=
  if exitCode = 11 then ⟨StatusRuntimeError, "SIGSEGV"⟩
  else if exitCode = 25 then ⟨StatusRuntimeError, "SIGXFSZ"⟩
  else if exitCode = 8 then ⟨StatusRuntimeError, "SIGFPE"⟩
  else if exitCode = 6 then ⟨StatusRuntimeError, "SIGABRT"⟩
  else ⟨StatusRuntimeError, "Other"⟩

/-- DetermineStatus from the utils package: maps isolate metadata status
to a JobStatus; the default branch compares trimmed stdout against the
expected output. -/
def DetermineStatus (status : String) (exitCode : Int)
    (stdout expected : String) : JobStatus :=
  if status = "TO" then ⟨StatusTimeLimitExceeded, ""⟩
  else if status = "SG" then findRuntimeType exitCode
  else if status = "RE" then ⟨StatusRuntimeError, "NZEC"⟩
  else if status = "XX" then ⟨StatusInternalError, ""⟩
  else if expected = "" ∨ trimSpace stdout = trimSpace expected then
    ⟨StatusAccepted, ""⟩
  else ⟨StatusWrongAnswer, ""⟩

/-- utils.Metadata: parsed isolate execution metadata. -/
structure Metadata where
  Time : ℚ := 0
  Memory : Nat := 0
  ExitCode : Int := 0
  Message : String := ""
  Status : String := ""
  deriving Repr, DecidableEq

/-- One loop iteration of ReadMetadata: cut the line at the first colon
and update the field selected by the key. Note that a max-rss line
assigns Memory unconditionally, while a cg-mem line only raises it. -/
def processLine (m : Metadata) (line : String) : Metadata :=
  match cutChar ':' line.data with
  | none => m
  | some (k, v) =>
    let key : String := ⟨k⟩
    let value : String := ⟨v⟩
    if key = "time" then { m with Time := parseFloatGo value }
    else if key = "max-rss" then { m with Memory := parseUintGo value }
    else if key = "cg-mem" then
      let mem := parseUintGo value
      if mem > m.Memory then { m with Memory := mem } else m
    else if key = "exitcode" then { m with ExitCode := parseAtoi value }
    else if key = "message" then { m with Message := value }
    else if key = "status" then { m with Status := value }
    else m

/-- ReadMetadata from the utils package, over the scanned lines of the
metadata file (the whole-file read failure is handled by the caller's
environment in the executor model). -/
def readMetadataLines (lines : List String) : Metadata :=
  lines.foldl processLine {}

/-- A metadata line that mentions neither memory key: its key (the part
before the first colon, when there is one) is neither max-rss nor
cg-mem. Such a line cannot change the Memory field. -/
def memKeyFree (line : String) : Bool :=
  match cutChar ':' line.data with
  | none => true
  | some (k, _) => decide ((⟨k⟩ : String) ≠ "max-rss" ∧ (⟨k⟩ : String) ≠ "cg-mem")

/-- utils.JobKey: the Redis key for a job ID. -/
def JobKey (id : Nat) : String := "job:" ++ Nat.repr id

-- ## Job store model (internal/redis/client.go)

/-- The stored payload. utils.MarshalJob/UnmarshalJob use a stable
self-describing JSON codec; the model keeps the job itself as the encoded
value, which captures exactly the codec round-trip the store relies on
(spec property P1); queue entries are plain strings. -/
inductive RVal where
  | str (s : String)
  | jobPayload (j : Job)
  deriving Repr, DecidableEq

/-- utils.MarshalJob modelled by its round-trip behaviour. -/
def MarshalJob (job : Job) : RVal := .jobPayload job

/-- utils.UnmarshalJob modelled by its round-trip behaviour: decoding a
non-job payload fails. -/
def UnmarshalJob : RVal → Option Job
  | .jobPayload j => some j
  | .str _ => none

/-- The visible state of the external Redis store: a key/value map with
per-key TTL seconds, and named lists. -/
structure RedisState where
  kv : List (String × RVal × Nat) := []
  lists : List (String × List String) := []
  deriving Repr, DecidableEq

/-- Lookup in the key/value part. -/
def RedisState.kvGet (st : RedisState) (k : String) : Option (RVal × Nat) :=
  (st.kv.find? fun e => e.1 = k).map (·.2)

/-- SET k v EX ttl. -/
def RedisState.kvSet (st : RedisState) (k : String) (v : RVal) (ttl : Nat) :
    RedisState :=
  { st with kv := (k, v, ttl) :: st.kv.filter fun e => e.1 ≠ k }

/-- The named list, empty when absent (as LLEN/RPUSH treat it). -/
def RedisState.listOf (st : RedisState) (q : String) : List String :=
  ((st.lists.find? fun e => e.1 = q).map (·.2)).getD []

/-- RPUSH q v: append on the right. -/
def RedisState.rpush (st : RedisState) (q v : String) : RedisState :=
  { st with
    lists := (q, st.listOf q ++ [v]) :: st.lists.filter fun e => e.1 ≠ q }

/-- The two commands enqueueJob issues in its transactional pipeline. -/
inductive RedisCmd where
  | set (k : String) (v : RVal) (ttl : Nat)
  | rpush (q v : String)
  deriving Repr, DecidableEq

/-- The model store's primitive semantics: SET and RPUSH always succeed. -/
def modelPrim : RedisCmd → RedisState → Except String RedisState
  | .set k v ttl, st => .ok (st.kvSet k v ttl)
  | .rpush q v, st => .ok (st.rpush q v)

/-- TxPipeline Exec: the commands run as one atomic transaction — either
every primitive succeeds and the combined state change applies, or the
first primitive failure aborts the whole pipeline with its error. The
primitive semantics is a parameter so that store-failure behaviour can be
stated; the model store instantiates it with modelPrim. -/
def execPipeline (prim : RedisCmd → RedisState → Except String RedisState) :
    List RedisCmd → RedisState → Except String RedisState
  | [], st => .ok st
  | c :: cs, st =>
    match prim c st with
    | .error e => .error e
    | .ok st₁ => execPipeline prim cs st₁

/-- jobTTL = time.Hour, in seconds as the store receives it. -/
def jobTTLSeconds : Nat := 3600

/-- enqueueJob from internal/redis/client.go: marshal the job, then run a
single transactional pipeline of SET(jobKey, payload, TTL) followed by
RPUSH(queueName, decimal job ID). -/
def enqueueJob (prim : RedisCmd → RedisState → Except String RedisState)
    (st : RedisState) (job : Job) (queueName : String) :
    Except String RedisState :=
  let payload := MarshalJob job
  let key := JobKey job.ID
  execPipeline prim
    [.set key payload jobTTLSeconds, .rpush queueName (Nat.repr job.ID)] st

/-- CreateJob: enqueue on the main queue "jobs". -/
def CreateJob (st : RedisState) (job : Job) : Except String RedisState :=
  enqueueJob modelPrim st job "jobs"

/-- CreateFreeJob: enqueue on the free queue "free_jobs". -/
def CreateFreeJob (st : RedisState) (job : Job) : Except String RedisState :=
  enqueueJob modelPrim st job "free_jobs"

/-- GetJob: GET jobKey(id); a missing key is "not found" (none), a
payload that fails to decode is an error. -/
def GetJob (st : RedisState) (jobID : Nat) : Except String (Option Job) :=
  match st.kvGet (JobKey jobID) with
  | none => .ok none
  | some (v, _) =>
    match UnmarshalJob v with
    | some j => .ok (some j)
    | none => .error "unmarshal failed"

/-- QueueLength: LLEN of the selected queue ("free_jobs" when free). -/
def QueueLength (st : RedisState) (free : Bool) : Nat :=
  (st.listOf (if free then "free_jobs" else "jobs")).length

-- ## Admission control (api handler, part_003)

/-- hasQueueCapacity from the API handler: a non-positive limit admits
everything; otherwise the selected queue's current length plus the
incoming batch size must not exceed the limit. -/
def hasQueueCapacity (queueLengthLimit : Int) (st : RedisState) (free : Bool)
    (incoming : Int) : Bool :=
  if queueLengthLimit ≤ 0 then true
  else (QueueLength st free : Int) + incoming ≤ queueLengthLimit

-- ## Isolate executor model (isolate package, part_005)

/-- The box IDs wrap at this modulus when the pool is disabled. -/
def boxModulo : Nat := 2147483647

/-- Outcome of the runJob subprocess as Execute observes it: nil error,
context.DeadlineExceeded (tolerated), or any other failure. An ExitError
from the tool is already swallowed inside runJob, so it surfaces as nil
here. -/
inductive RunFail where
  | deadlineExceeded
  | failed (msg : String)
  deriving Repr, DecidableEq

/-- Environment of one Execute call: the observable result of every
external effect (box acquisition/initialisation, file staging, the
compile and run subprocesses, the files read back, the metadata file and
the clock), so that the per-job state machine itself is a pure
function. -/
structure ExecEnv where
  now : Int := 0
  boxError : Option String := none
  setupError : Option String := none
  compileExecFailed : Bool := false
  compileCombinedOutput : String := ""
  compileOutputFile : String := ""
  runResult : Option RunFail := none
  stdoutFile : String := ""
  stderrFile : String := ""
  metadata : Except String (List String) := .ok []

/-- Phases of the Execute state machine that actually started. -/
inductive ExecPhase where
  | box
  | setup
  | compile
  | run
  | readOut
  | readMeta
  deriving Repr, DecidableEq

/-- Result of one Execute call: the mutated job, the returned status and
Go error, and the trace of phases entered. -/
structure ExecResult where
  job : Job
  status : JobStatus
  err : Option String
  phases : List ExecPhase
  deriving Repr, DecidableEq

/-- The common failure epilogue of Execute: status InternalError, the
error recorded in output.message, finishedAt stamped, error returned. -/
def failResult (job : Job) (e : String) (now : Int) (tr : List ExecPhase) :
    ExecResult :=
  { job := { job with
      Status := ⟨StatusInternalError, ""⟩
      Output.Message := e
      FinishedAt := now }
    status := ⟨StatusInternalError, ""⟩
    err := some e
    phases := tr }

/-- getCgroupFlags from the isolate package: per-process -m when cgroups
are off or per-process memory limiting is requested, else --cg-mem. -/
def getCgroupFlags (useCgroup : Bool) (job : Job) : List String :=
  if !useCgroup then ["-m", Nat.repr job.Settings.MemoryLimit]
  else if job.Settings.EnablePerProcessAndThreadMemoryLimit then
    ["-m", Nat.repr job.Settings.MemoryLimit]
  else ["--cg-mem=" ++ Nat.repr job.Settings.MemoryLimit]

/-- The inner shell command compileJob builds: the whitespace-split
compile command re-joined with single spaces, stderr sent to the
compile_output file. -/
def compileCmdStr (job : Job) : String :=
  String.intercalate " " (goFields job.Language.CompileCmd)
    ++ " 2> /box/compile_output"

/-- The isolate argument vector compileJob builds (part_005): note the
compile stage passes the Max* limits — MaxCPUTimeLimit to -t,
MaxWallTimeLimit to -w, MaxStackLimit to -k. -/
def compileArgs (useCgroup : Bool) (job : Job) (boxID : Nat)
    (metadataPath : String) : List String :=
  (if useCgroup then ["--cg"] else []) ++
  ["-s", "-b", Nat.repr boxID, "-M", metadataPath,
   "--stderr-to-stdout", "-i", "/dev/null",
   "--process=" ++ Nat.repr job.Settings.MaxProcesses,
   "-t", formatFloatG job.Settings.MaxCPUTimeLimit,
   "-x", "0",
   "-w", formatFloatG job.Settings.MaxWallTimeLimit,
   "-k", Nat.repr job.Settings.MaxStackLimit,
   "-f", Nat.repr job.Settings.MaxFileSize,
   "-E", "PATH=/usr/local/sbin:/usr/local/bin:/usr/sbin:/usr/bin:/sbin:/bin",
   "-E", "HOME=/tmp",
   "-d", "/etc:noexec"] ++
  getCgroupFlags useCgroup job ++
  ["--run", "--", "/usr/bin/sh", "-c", compileCmdStr job]

/-- compileJob from the isolate package, as a function of the environment:
an empty compile command is an internal error; otherwise the compile
output file populates output.compileOutput, a failed subprocess falls
back to the tool's combined output, mirrors a non-empty compileOutput
into output.message (else "Compilation failed") and yields a
CompilationError status with a nil error; a clean exit yields Accepted. -/
def compileJobM (env : ExecEnv) (job : Job) : Job × JobStatus × Option String :=
  let parts := goFields job.Language.CompileCmd
  if parts = [] then
    (job, ⟨StatusInternalError, ""⟩, some "compile command is empty")
  else
    let job := if env.compileOutputFile ≠ "" then
      { job with Output.CompileOutput := env.compileOutputFile } else job
    if env.compileExecFailed then
      let job := if env.compileOutputFile = "" then
        { job with Output.CompileOutput := trimSpace env.compileCombinedOutput }
        else job
      let job := if job.Output.CompileOutput ≠ "" then
        { job with Output.Message := job.Output.CompileOutput }
        else { job with Output.Message := "Compilation failed" }
      (job, ⟨StatusCompilationError, ""⟩, none)
    else (job, ⟨StatusAccepted, ""⟩, none)

/-- runJob's returned error, as Execute observes it: an empty run command
is an immediate error; everything else comes from the subprocess. -/
def runJobM (env : ExecEnv) (job : Job) : Option RunFail :=
  if goFields job.Language.RunCmd = [] then
    some (.failed "run command is empty")
  else env.runResult

/-- readOutputs from the isolate package: stdout and stderr are read
back; compileOutput is re-read only when still empty for a compiled
language, and forced to empty for an interpreted one. -/
def readOutputsM (env : ExecEnv) (job : Job) : Job :=
  let job := { job with
    Output.Stdout := env.stdoutFile
    Output.Stderr := env.stderrFile }
  if job.Output.CompileOutput = "" ∧ job.Language.CompileCmd ≠ "" then
    { job with Output.CompileOutput := env.compileOutputFile }
  else if job.Language.CompileCmd = "" then
    { job with Output.CompileOutput := "" }
  else job

/-- The tail of Execute after the optional compile stage: run (tolerating
DeadlineExceeded), read outputs, read metadata, copy the metadata fields
into the output, classify, stamp finishedAt. -/
def executeRun (env : ExecEnv) (job : Job) (tr : List ExecPhase) : ExecResult :=
  match runJobM env job with
  | some (.failed e) => failResult job e env.now (tr ++ [.run])
  | _ =>
    let job := readOutputsM env job
    match env.metadata with
    | .error e => failResult job e env.now (tr ++ [.run, .readOut, .readMeta])
    | .ok lines =>
      let meta := readMetadataLines lines
      let job := { job with
        Output.Time := meta.Time
        Output.Memory := meta.Memory
        Output.ExitCode := meta.ExitCode
        Output.Message := meta.Message }
      let st := DetermineStatus meta.Status meta.ExitCode
        job.Output.Stdout job.ExpectedOutput
      { job := { job with Status := st, FinishedAt := env.now }
        status := st
        err := none
        phases := tr ++ [.run, .readOut, .readMeta] }

/-- Execute from the isolate package (part_005): acquire/clean or init a
box, stage the files, compile when the language has a compile command
(short-circuiting on CompilationError with a nil error), then run and
classify. Box identity does not influence the observable job fields, so
the model elides it. -/
def ExecuteM (env : ExecEnv) (job : Job) : ExecResult :=
  match env.boxError with
  | some e => failResult job e env.now [.box]
  | none =>
  match env.setupError with
  | some e => failResult job e env.now [.box, .setup]
  | none =>
    if job.Language.CompileCmd ≠ "" then
      let r := compileJobM env job
      match r.2.2 with
      | some e => failResult r.1 e env.now [.box, .setup, .compile]
      | none =>
        if r.2.1.Kind = StatusCompilationError then
          { job := { r.1 with Status := r.2.1, FinishedAt := env.now }
            status := r.2.1
            err := none
            phases := [.box, .setup, .compile] }
        else executeRun env r.1 [.box, .setup, .compile]
    else executeRun env job [.box, .setup]

-- ## Worker retry loop (internal/worker/worker.go)

/-- defaultRetries from internal/worker/worker.go. -/
def defaultRetries : Nat := 3

/-- The observable actions of one processJob call. The executor behaviour
is abstracted as a function from the attempt index to the Go error
Execute returns on that attempt (none = nil error). -/
inductive WorkerEvent where
  | storeProcessing
  | execute (attempt : Nat)
  | storeResult
  | cleanup
  | sleepOneSec
  deriving Repr, DecidableEq

/-- The processJob for-loop from worker.go, unrolled from a given attempt
index with explicit fuel (the loop bound defaultRetries - attempt): each
iteration stores Processing, executes, stores the result and cleans up;
a nil executor error returns immediately, exhaustion returns, otherwise
the worker sleeps one second and retries. -/
def processFrom (f : Nat → Option String) : Nat → Nat → List WorkerEvent
  | 0, _ => []
  | r + 1, attempt =>
    let base := [WorkerEvent.storeProcessing, .execute attempt,
      .storeResult, .cleanup]
    match f attempt with
    | none => base
    | some _ =>
      if attempt + 1 ≥ defaultRetries then base
      else base ++ [.sleepOneSec] ++ processFrom f r (attempt + 1)

/-- processJob from worker.go: the loop starting at attempt 0. -/
def processJobEvents (f : Nat → Option String) : List WorkerEvent :=
  processFrom f defaultRetries 0

/-- Recogniser for executor invocations in a worker trace. -/
def isExecEvent : WorkerEvent → Bool
  | .execute _ => true
  | _ => false

/-- Recogniser for the retry delay in a worker trace. -/
def isSleepEvent : WorkerEvent → Bool
  | .sleepOneSec => true
  | _ => false

/-- Number of executor invocations a processJob call performs. -/
def execCount (f : Nat → Option String) : Nat :=
  ((processJobEvents f).filter isExecEvent).length

-- ## Theorems

/-- C7: for each status Kind/RuntimeCode pair of the external table,
ID() and Description() return exactly the table's values:
Queued→(1, "In Queue"), Processing→(2, "Processing"), Accepted→(3,
"Accepted"), WrongAnswer→(4, "Wrong Answer"), TimeLimitExceeded→(5,
"Time Limit Exceeded"), CompilationError→(6, "Compilation Error"),
RuntimeError with SIGSEGV/SIGXFSZ/SIGFPE/SIGABRT/NZEC/Other→(7..12,
"Runtime Error: (<code>)"), InternalError→(13, "Internal Error"),
ExecFormatError→(14, "Exec Format Error"). -/
theorem c7_status_table :
    JobStatus.ID ⟨StatusQueued, ""⟩ = 1 ∧
    JobStatus.Description ⟨StatusQueued, ""⟩ = "In Queue" ∧
    JobStatus.ID ⟨StatusProcessing, ""⟩ = 2 ∧
    JobStatus.Description ⟨StatusProcessing, ""⟩ = "Processing" ∧
    JobStatus.ID ⟨StatusAccepted, ""⟩ = 3 ∧
    JobStatus.Description ⟨StatusAccepted, ""⟩ = "Accepted" ∧
    JobStatus.ID ⟨StatusWrongAnswer, ""⟩ = 4 ∧
    JobStatus.Description ⟨StatusWrongAnswer, ""⟩ = "Wrong Answer" ∧
    JobStatus.ID ⟨StatusTimeLimitExceeded, ""⟩ = 5 ∧
    JobStatus.Description ⟨StatusTimeLimitExceeded, ""⟩ = "Time Limit Exceeded" ∧
    JobStatus.ID ⟨StatusCompilationError, ""⟩ = 6 ∧
    JobStatus.Description ⟨StatusCompilationError, ""⟩ = "Compilation Error" ∧
    JobStatus.ID ⟨StatusRuntimeError, "SIGSEGV"⟩ = 7 ∧
    JobStatus.Description ⟨StatusRuntimeError, "SIGSEGV"⟩ = "Runtime Error: (SIGSEGV)" ∧
    JobStatus.ID ⟨StatusRuntimeError, "SIGXFSZ"⟩ = 8 ∧
    JobStatus.Description ⟨StatusRuntimeError, "SIGXFSZ"⟩ = "Runtime Error: (SIGXFSZ)" ∧
    JobStatus.ID ⟨StatusRuntimeError, "SIGFPE"⟩ = 9 ∧
    JobStatus.Description ⟨StatusRuntimeError, "SIGFPE"⟩ = "Runtime Error: (SIGFPE)" ∧
    JobStatus.ID ⟨StatusRuntimeError, "SIGABRT"⟩ = 10 ∧
    JobStatus.Description ⟨StatusRuntimeError, "SIGABRT"⟩ = "Runtime Error: (SIGABRT)" ∧
    JobStatus.ID ⟨StatusRuntimeError, "NZEC"⟩ = 11 ∧
    JobStatus.Description ⟨StatusRuntimeError, "NZEC"⟩ = "Runtime Error: (NZEC)" ∧
    JobStatus.ID ⟨StatusRuntimeError, "Other"⟩ = 12 ∧
    JobStatus.Description ⟨StatusRuntimeError, "Other"⟩ = "Runtime Error: (Other)" ∧
    JobStatus.ID ⟨StatusInternalError, ""⟩ = 13 ∧
    JobStatus.Description ⟨StatusInternalError, ""⟩ = "Internal Error" ∧
    JobStatus.ID ⟨StatusExecFormatError, ""⟩ = 14 ∧
    JobStatus.Description ⟨StatusExecFormatError, ""⟩ = "Exec Format Error" := by
  decide

/-- Helper: a string with the runtime-error description shape is never
empty, whatever the code is. -/
theorem runtimeDescription_ne_empty (c : String) :
    "Runtime Error: (" ++ c ++ ")" ≠ "" := by
  intro h
  have hl : ("Runtime Error: (" ++ c ++ ")").length = (0 : Nat) := by
    rw [h]; rfl
  rw [String.length_append, String.length_append] at hl
  have h1 : ("Runtime Error: (" : String).length = 16 := rfl
  have h2 : (")" : String).length = 1 := rfl
  omega

/-- C9: for every JobStatus value, including those whose Kind is none of
the nine enumerated kinds, ID() returns an integer in [1,14] and
Description() a non-empty string; any unrecognized Kind maps to
(13, "Internal Error"); and a RuntimeError with an empty RuntimeCode maps
to ID 12 with description "Runtime Error". -/
theorem c9_id_description_total :
    (∀ s : JobStatus, 1 ≤ s.ID ∧ s.ID ≤ 14) ∧
    (∀ s : JobStatus, s.Description ≠ "") ∧
    (∀ s : JobStatus,
      s.Kind ≠ StatusQueued → s.Kind ≠ StatusProcessing →
      s.Kind ≠ StatusAccepted → s.Kind ≠ StatusWrongAnswer →
      s.Kind ≠ StatusTimeLimitExceeded → s.Kind ≠ StatusCompilationError →
      s.Kind ≠ StatusRuntimeError → s.Kind ≠ StatusInternalError →
      s.Kind ≠ StatusExecFormatError →
      s.ID = 13 ∧ s.Description = "Internal Error") ∧
    JobStatus.ID ⟨StatusRuntimeError, ""⟩ = 12 ∧
    JobStatus.Description ⟨StatusRuntimeError, ""⟩ = "Runtime Error" := by
  refine ⟨fun s => ?_, fun s => ?_, fun s h1 h2 h3 h4 h5 h6 h7 h8 h9 => ?_,
    by decide, by decide⟩
  · unfold JobStatus.ID
    by_cases h1 : s.Kind = StatusQueued
    · rw [if_pos h1]
      omega
    · rw [if_neg h1]
      by_cases h2 : s.Kind = StatusProcessing
      · rw [if_pos h2]
        omega
      · rw [if_neg h2]
        by_cases h3 : s.Kind = StatusAccepted
        · rw [if_pos h3]
          omega
        · rw [if_neg h3]
          by_cases h4 : s.Kind = StatusWrongAnswer
          · rw [if_pos h4]
            omega
          · rw [if_neg h4]
            by_cases h5 : s.Kind = StatusTimeLimitExceeded
            · rw [if_pos h5]
              omega
            · rw [if_neg h5]
              by_cases h6 : s.Kind = StatusCompilationError
              · rw [if_pos h6]
                omega
              · rw [if_neg h6]
                by_cases h7 : s.Kind = StatusRuntimeError
                · rw [if_pos h7]
                  by_cases g1 : s.RuntimeCode = "SIGSEGV"
                  · rw [if_pos g1]
                    omega
                  · rw [if_neg g1]
                    by_cases g2 : s.RuntimeCode = "SIGXFSZ"
                    · rw [if_pos g2]
                      omega
                    · rw [if_neg g2]
                      by_cases g3 : s.RuntimeCode = "SIGFPE"
                      · rw [if_pos g3]
                        omega
                      · rw [if_neg g3]
                        by_cases g4 : s.RuntimeCode = "SIGABRT"
                        · rw [if_pos g4]
                          omega
                        · rw [if_neg g4]
                          by_cases g5 : s.RuntimeCode = "NZEC"
                          · rw [if_pos g5]
                            omega
                          · rw [if_neg g5]
                            omega
                · rw [if_neg h7]
                  by_cases h8 : s.Kind = StatusInternalError
                  · rw [if_pos h8]
                    omega
                  · rw [if_neg h8]
                    by_cases h9 : s.Kind = StatusExecFormatError
                    · rw [if_pos h9]
                      omega
                    · rw [if_neg h9]
                      omega
  · unfold JobStatus.Description
    by_cases h1 : s.Kind = StatusQueued
    · rw [if_pos h1]
      decide
    · rw [if_neg h1]
      by_cases h2 : s.Kind = StatusProcessing
      · rw [if_pos h2]
        decide
      · rw [if_neg h2]
        by_cases h3 : s.Kind = StatusAccepted
        · rw [if_pos h3]
          decide
        · rw [if_neg h3]
          by_cases h4 : s.Kind = StatusWrongAnswer
          · rw [if_pos h4]
            decide
          · rw [if_neg h4]
            by_cases h5 : s.Kind = StatusTimeLimitExceeded
            · rw [if_pos h5]
              decide
            · rw [if_neg h5]
              by_cases h6 : s.Kind = StatusCompilationError
              · rw [if_pos h6]
                decide
              · rw [if_neg h6]
                by_cases h7 : s.Kind = StatusRuntimeError
                · rw [if_pos h7]
                  by_cases g0 : s.RuntimeCode = ""
                  · rw [if_pos g0]
                    decide
                  · rw [if_neg g0]
                    exact runtimeDescription_ne_empty _
                · rw [if_neg h7]
                  by_cases h8 : s.Kind = StatusInternalError
                  · rw [if_pos h8]
                    decide
                  · rw [if_neg h8]
                    by_cases h9 : s.Kind = StatusExecFormatError
                    · rw [if_pos h9]
                      decide
                    · rw [if_neg h9]
                      decide
  · unfold JobStatus.ID JobStatus.Description
    simp only [if_neg h1, if_neg h2, if_neg h3, if_neg h4, if_neg h5, if_neg h6,
      if_neg h7, if_neg h8, if_neg h9]
    refine ⟨?_, ?_⟩ <;> trivial

/-- C9 witness: the anonymous-kind status evaluates as the theorem says
at a concrete unrecognized kind and at the empty runtime code. -/
theorem c9_witness :
    JobStatus.ID ⟨"SomethingElse", "x"⟩ = 13 ∧
    JobStatus.Description ⟨"SomethingElse", "x"⟩ = "Internal Error" :=
  (c9_id_description_total.2.2.1 ⟨"SomethingElse", "x"⟩
    (by decide) (by decide) (by decide) (by decide) (by decide)
    (by decide) (by decide) (by decide) (by decide))

/-- C1: for every metadata status string s, exit code e, stdout out and
expected string exp, the pure classifier returns: TimeLimitExceeded when
s="TO"; RuntimeError with code SIGSEGV, SIGXFSZ, SIGFPE, SIGABRT when
s="SG" and e is 11, 25, 8, 6 respectively, and code "Other" for every
other e; RuntimeError("NZEC") when s="RE"; InternalError when s="XX";
and for any other or empty s, Accepted if and only if exp is empty or
whitespace-trimmed out equals whitespace-trimmed exp, else WrongAnswer. -/
theorem c1_classifier_table :
    ∀ (e : Int) (out exp : String),
    DetermineStatus "TO" e out exp = ⟨StatusTimeLimitExceeded, ""⟩ ∧
    DetermineStatus "SG" 11 out exp = ⟨StatusRuntimeError, "SIGSEGV"⟩ ∧
    DetermineStatus "SG" 25 out exp = ⟨StatusRuntimeError, "SIGXFSZ"⟩ ∧
    DetermineStatus "SG" 8 out exp = ⟨StatusRuntimeError, "SIGFPE"⟩ ∧
    DetermineStatus "SG" 6 out exp = ⟨StatusRuntimeError, "SIGABRT"⟩ ∧
    (e ≠ 11 → e ≠ 25 → e ≠ 8 → e ≠ 6 →
      DetermineStatus "SG" e out exp = ⟨StatusRuntimeError, "Other"⟩) ∧
    DetermineStatus "RE" e out exp = ⟨StatusRuntimeError, "NZEC"⟩ ∧
    DetermineStatus "XX" e out exp = ⟨StatusInternalError, ""⟩ ∧
    ∀ s : String, s ≠ "TO" → s ≠ "SG" → s ≠ "RE" → s ≠ "XX" →
      (DetermineStatus s e out exp = ⟨StatusAccepted, ""⟩ ↔
        (exp = "" ∨ trimSpace out = trimSpace exp)) ∧
      (¬(exp = "" ∨ trimSpace out = trimSpace exp) →
        DetermineStatus s e out exp = ⟨StatusWrongAnswer, ""⟩) := by
  intro e out exp
  refine ⟨rfl, rfl, rfl, rfl, rfl, fun h11 h25 h8 h6 => ?_, rfl, rfl,
    fun s hTO hSG hRE hXX => ?_⟩
  · show findRuntimeType e = _
    unfold findRuntimeType
    rw [if_neg h11, if_neg h25, if_neg h8, if_neg h6]
  · unfold DetermineStatus
    rw [if_neg hTO, if_neg hSG, if_neg hRE, if_neg hXX]
    by_cases hc : exp = "" ∨ trimSpace out = trimSpace exp
    · rw [if_pos hc]
      exact ⟨⟨fun _ => hc, fun _ => rfl⟩, fun hn => absurd hc hn⟩
    · rw [if_neg hc]
      refine ⟨⟨fun hw => ?_, fun h => absurd h hc⟩, fun _ => rfl⟩
      exact absurd (congrArg JobStatus.Kind hw) (by decide)

/-- C1 witness: the classifier theorem applied at concrete inputs, with
every hypothesis discharged there. -/
theorem c1_classifier_witness :
    DetermineStatus "SG" 42 "o" "x" = ⟨StatusRuntimeError, "Other"⟩ ∧
    DetermineStatus "" 0 " hello \n" "hello" = ⟨StatusAccepted, ""⟩ ∧
    DetermineStatus "ZZ" 0 "a" "b" = ⟨StatusWrongAnswer, ""⟩ := by
  refine ⟨(c1_classifier_table 42 "o" "x").2.2.2.2.2.1
      (by decide) (by decide) (by decide) (by decide), ?_, ?_⟩
  · exact ((c1_classifier_table 0 " hello \n" "hello").2.2.2.2.2.2.2.2 ""
      (by decide) (by decide) (by decide) (by decide)).1.mpr
      (Or.inr (by decide))
  · exact ((c1_classifier_table 0 "a" "b").2.2.2.2.2.2.2.2 "ZZ"
      (by decide) (by decide) (by decide) (by decide)).2 (by decide)

/-- C8: for every queue (main or free, checked independently), when
queueLengthLimit = L > 0 a submission of k items is rejected exactly when
currentLength + k > L; in particular with current length L-1 a batch of
size 2 is refused and a batch of size 1 is accepted; when L ≤ 0 every
submission passes the capacity check. -/
theorem c8_admission_control :
    (∀ (L : Int) (st : RedisState) (free : Bool) (k : Int), 0 < L →
      (hasQueueCapacity L st free k = false ↔
        (QueueLength st free : Int) + k > L)) ∧
    (∀ (L : Int) (st : RedisState) (free : Bool), 0 < L →
      (QueueLength st free : Int) = L - 1 →
      hasQueueCapacity L st free 2 = false ∧
      hasQueueCapacity L st free 1 = true) ∧
    (∀ (L : Int) (st : RedisState) (free : Bool) (k : Int), L ≤ 0 →
      hasQueueCapacity L st free k = true) := by
  refine ⟨fun L st free k hL => ?_, fun L st free hL hlen => ?_,
    fun L st free k hL => ?_⟩
  · unfold hasQueueCapacity
    rw [if_neg (by omega)]
    constructor
    · intro h
      by_contra hgt
      simp only [decide_eq_false_iff_not, not_le] at h
      omega
    · intro h
      simp only [decide_eq_false_iff_not, not_le]
      omega
  · unfold hasQueueCapacity
    rw [if_neg (by omega), if_neg (by omega)]
    constructor
    · simp only [decide_eq_false_iff_not, not_le]
      omega
    · simp only [decide_eq_true_eq]
      omega
  · unfold hasQueueCapacity
    rw [if_pos hL]

/-- C8 witness: a main queue of length 2 with limit 3 refuses a batch of
2 and accepts a batch of 1. -/
theorem c8_admission_witness :
    hasQueueCapacity 3 { lists := [("jobs", ["1", "2"])] } false 2 = false ∧
    hasQueueCapacity 3 { lists := [("jobs", ["1", "2"])] } false 1 = true :=
  c8_admission_control.2.1 3 { lists := [("jobs", ["1", "2"])] } false
    (by decide) (by decide)

/-- Helper: a two-command transactional pipeline errors exactly when its
first primitive errors, or its first succeeds and its second errors. -/
theorem execPipeline_pair_error (prim : RedisCmd → RedisState → Except String RedisState)
    (c1 c2 : RedisCmd) (st : RedisState) :
    (∃ e, execPipeline prim [c1, c2] st = .error e) ↔
      ((∃ e, prim c1 st = .error e) ∨
       (∃ st₁ e, prim c1 st = .ok st₁ ∧ prim c2 st₁ = .error e)) := by
  cases h1 : prim c1 st with
  | error e => simp [execPipeline, h1]
  | ok st₁ =>
    cases h2 : prim c2 st₁ with
    | error e => simp [execPipeline, h1, h2]
    | ok st₂ => simp [execPipeline, h1, h2]

/-- C4: for every job and queue choice free, Enqueue performs in a single
atomic pipeline a SET of key "job:<decimal-id>" to the encoded job with a
1-hour TTL and an append of the decimal job ID to queue "jobs" (free =
false) or "free_jobs" (free = true); it returns an error if and only if a
pipeline primitive fails; and after success the job is retrievable by Get
under the same ID. -/
theorem c4_enqueue_pipeline :
    ∀ (st : RedisState) (job : Job) (free : Bool),
    let q : String := if free then "free_jobs" else "jobs"
    let st' := (st.kvSet (JobKey job.ID) (MarshalJob job) jobTTLSeconds).rpush
      q (Nat.repr job.ID)
    (if free then CreateFreeJob st job else CreateJob st job) = .ok st' ∧
    JobKey job.ID = "job:" ++ Nat.repr job.ID ∧
    jobTTLSeconds = 3600 ∧
    st'.kvGet (JobKey job.ID) = some (MarshalJob job, jobTTLSeconds) ∧
    st'.listOf q = st.listOf q ++ [Nat.repr job.ID] ∧
    GetJob st' job.ID = .ok (some job) ∧
    (∀ prim, (∃ e, enqueueJob prim st job q = .error e) ↔
      ((∃ e, prim (.set (JobKey job.ID) (MarshalJob job) jobTTLSeconds) st
          = .error e) ∨
       (∃ st₁ e,
          prim (.set (JobKey job.ID) (MarshalJob job) jobTTLSeconds) st
            = .ok st₁ ∧
          prim (.rpush q (Nat.repr job.ID)) st₁ = .error e))) := by
  intro st job free
  refine ⟨?_, rfl, rfl, ?_, ?_, ?_, fun prim => ?_⟩
  · cases free <;> rfl
  · simp [RedisState.kvGet, RedisState.kvSet, RedisState.rpush, List.find?]
  · simp [RedisState.listOf, RedisState.kvSet, RedisState.rpush, List.find?]
  · simp [GetJob, RedisState.kvGet, RedisState.kvSet, RedisState.rpush,
      List.find?, MarshalJob, UnmarshalJob]
  · exact execPipeline_pair_error prim _ _ st

/-- C3 counterexample: with the default settings (CPU limit 5s, wall
limit 10s, stack limit 64000 KiB), the compile-stage argument vector
carries "-t 15", "-w 20" and "-k 512000" — the Max* limits — not the
job's CPU limit, a 10-second wall budget, or the job's stack limit as
the claim states. -/
theorem c3_compile_flags_counterexample :
    (compileArgs false
        { Settings := DefaultExecutionSettings,
          Language := { CompileCmd := "g++ main.cpp" } } 7 "/meta").get? 9
      = some "-t" ∧
    (compileArgs false
        { Settings := DefaultExecutionSettings,
          Language := { CompileCmd := "g++ main.cpp" } } 7 "/meta").get? 10
      = some "15" ∧
    formatFloatG DefaultExecutionSettings.CPUTimeLimit = "5" ∧
    (compileArgs false
        { Settings := DefaultExecutionSettings,
          Language := { CompileCmd := "g++ main.cpp" } } 7 "/meta").get? 13
      = some "-w" ∧
    (compileArgs false
        { Settings := DefaultExecutionSettings,
          Language := { CompileCmd := "g++ main.cpp" } } 7 "/meta").get? 14
      = some "20" ∧
    formatFloatG (10 : ℚ) = "10" ∧
    (compileArgs false
        { Settings := DefaultExecutionSettings,
          Language := { CompileCmd := "g++ main.cpp" } } 7 "/meta").get? 15
      = some "-k" ∧
    (compileArgs false
        { Settings := DefaultExecutionSettings,
          Language := { CompileCmd := "g++ main.cpp" } } 7 "/meta").get? 16
      = some "512000" ∧
    Nat.repr DefaultExecutionSettings.StackLimit = "64000" := by
  decide

/-- C3 (amended): for every job, the compile-stage invocation of the
sandbox tool passes the job's MaxCPUTimeLimit as the -t flag, the job's
MaxWallTimeLimit as the -w flag (default 20s, not 10s), the job's
MaxStackLimit as the -k flag, --process=maxProcesses, -x 0 and
-f maxFileSize, as one consecutive block of the argument vector. -/
theorem c3_compile_flags_amended :
    ∀ (useCgroup : Bool) (job : Job) (boxID : Nat) (metadataPath : String),
    ∃ pre post, compileArgs useCgroup job boxID metadataPath =
      pre ++ ["--process=" ++ Nat.repr job.Settings.MaxProcesses,
        "-t", formatFloatG job.Settings.MaxCPUTimeLimit,
        "-x", "0",
        "-w", formatFloatG job.Settings.MaxWallTimeLimit,
        "-k", Nat.repr job.Settings.MaxStackLimit,
        "-f", Nat.repr job.Settings.MaxFileSize] ++ post := by
  intro useCgroup job boxID metadataPath
  refine ⟨(if useCgroup then ["--cg"] else []) ++
    ["-s", "-b", Nat.repr boxID, "-M", metadataPath,
     "--stderr-to-stdout", "-i", "/dev/null"],
    ["-E", "PATH=/usr/local/sbin:/usr/local/bin:/usr/sbin:/usr/bin:/sbin:/bin",
     "-E", "HOME=/tmp", "-d", "/etc:noexec"] ++
    getCgroupFlags useCgroup job ++
    ["--run", "--", "/usr/bin/sh", "-c", compileCmdStr job], ?_⟩
  unfold compileArgs
  cases useCgroup <;> simp

/-- Helper: a line mentioning neither memory key leaves Memory unchanged,
whatever else it updates. -/
theorem processLine_memory_of_memKeyFree (m : Metadata) (l : String)
    (h : memKeyFree l = true) : (processLine m l).Memory = m.Memory := by
  unfold processLine
  unfold memKeyFree at h
  cases hc : cutChar ':' l.data with
  | none => rfl
  | some p =>
    obtain ⟨k, v⟩ := p
    dsimp only
    rw [hc] at h
    simp only [decide_eq_true_eq] at h
    obtain ⟨hk1, hk2⟩ := h
    by_cases ht : (⟨k⟩ : String) = "time"
    · rw [if_pos ht]
    · rw [if_neg ht]
      by_cases hm1 : (⟨k⟩ : String) = "max-rss"
      · exact absurd hm1 hk1
      · rw [if_neg hm1]
        by_cases hm2 : (⟨k⟩ : String) = "cg-mem"
        · exact absurd hm2 hk2
        · rw [if_neg hm2]
          by_cases he : (⟨k⟩ : String) = "exitcode"
          · rw [if_pos he]
          · rw [if_neg he]
            by_cases hms : (⟨k⟩ : String) = "message"
            · rw [if_pos hms]
            · rw [if_neg hms]
              by_cases hst : (⟨k⟩ : String) = "status"
              · rw [if_pos hst]
              · rw [if_neg hst]

/-- Helper: folding the line processor over memory-key-free lines leaves
Memory unchanged. -/
theorem foldl_memory_of_memKeyFree (ls : List String) (m : Metadata)
    (h : ∀ l ∈ ls, memKeyFree l = true) :
    (ls.foldl processLine m).Memory = m.Memory := by
  induction ls generalizing m with
  | nil => rfl
  | cons l rest ih =>
    rw [List.foldl_cons]
    rw [ih (processLine m l) fun x hx => h x (List.mem_cons_of_mem _ hx)]
    exact processLine_memory_of_memKeyFree m l (h l (List.mem_cons_self _ _))

/-- Helper: a max-rss line assigns Memory unconditionally, overwriting
whatever value was there. -/
theorem processLine_maxrss (m : Metadata) (l : String) (v : List Char)
    (h : cutChar ':' l.data = some ("max-rss".data, v)) :
    processLine m l = { m with Memory := parseUintGo ⟨v⟩ } := by
  unfold processLine
  rw [h]
  dsimp only
  rw [if_neg (by decide), if_pos rfl]

/-- Helper: a cg-mem line only raises Memory. -/
theorem processLine_cgmem (m : Metadata) (l : String) (v : List Char)
    (h : cutChar ':' l.data = some ("cg-mem".data, v)) :
    processLine m l =
      (if parseUintGo ⟨v⟩ > m.Memory then { m with Memory := parseUintGo ⟨v⟩ }
       else m) := by
  unfold processLine
  rw [h]
  dsimp only
  rw [if_neg (by decide), if_neg (by decide), if_pos rfl]

/-- C2 counterexample: a metadata file listing cg-mem:100 before
max-rss:50 parses to Memory = 50, not the maximum 100 of the two parsed
values — the max-rss case overwrites Memory unconditionally, so the
claimed "in any line order" fails. -/
theorem c2_memory_counterexample :
    (readMetadataLines ["cg-mem:100", "max-rss:50"]).Memory = 50 ∧
    (readMetadataLines ["cg-mem:100", "max-rss:50"]).Memory ≠
      max (parseUintGo "100") (parseUintGo "50") := by
  decide

/-- C2 (amended): for every metadata file in which the max-rss line
precedes the cg-mem line and no other max-rss or cg-mem line follows the
max-rss line, ReadMetadata returns a Memory equal to the maximum of the
two parsed values (lines before the max-rss line are irrelevant, since
max-rss overwrites), and the Executor copies this value into
output.memory. -/
theorem c2_memory_amended :
    ∀ (env : ExecEnv) (job : Job) (pre mid post : List String)
      (l₁ l₂ : String) (v₁ v₂ : List Char),
    cutChar ':' l₁.data = some ("max-rss".data, v₁) →
    cutChar ':' l₂.data = some ("cg-mem".data, v₂) →
    (∀ l ∈ mid, memKeyFree l = true) →
    (∀ l ∈ post, memKeyFree l = true) →
    (readMetadataLines (pre ++ l₁ :: (mid ++ l₂ :: post))).Memory
        = max (parseUintGo ⟨v₁⟩) (parseUintGo ⟨v₂⟩) ∧
    (env.metadata = .ok (pre ++ l₁ :: (mid ++ l₂ :: post)) →
      env.boxError = none → env.setupError = none →
      job.Language.CompileCmd = "" → goFields job.Language.RunCmd ≠ [] →
      (∀ msg, env.runResult ≠ some (.failed msg)) →
      (ExecuteM env job).job.Output.Memory
        = max (parseUintGo ⟨v₁⟩) (parseUintGo ⟨v₂⟩)) := by
  intro env job pre mid post l₁ l₂ v₁ v₂ h₁ h₂ hmid hpost
  have hmem : (readMetadataLines (pre ++ l₁ :: (mid ++ l₂ :: post))).Memory
      = max (parseUintGo ⟨v₁⟩) (parseUintGo ⟨v₂⟩) := by
    unfold readMetadataLines
    rw [List.foldl_append, List.foldl_cons, List.foldl_append, List.foldl_cons]
    rw [processLine_maxrss _ l₁ v₁ h₁]
    have hmidmem : (List.foldl processLine
        { List.foldl processLine {} pre with Memory := parseUintGo ⟨v₁⟩ }
        mid).Memory = parseUintGo ⟨v₁⟩ :=
      (foldl_memory_of_memKeyFree mid
        { List.foldl processLine {} pre with Memory := parseUintGo ⟨v₁⟩ }
        hmid).trans rfl
    rw [processLine_cgmem _ l₂ v₂ h₂]
    by_cases hgt : parseUintGo ⟨v₂⟩ >
        (List.foldl processLine
          { List.foldl processLine {} pre with Memory := parseUintGo ⟨v₁⟩ }
          mid).Memory
    · rw [if_pos hgt]
      rw [foldl_memory_of_memKeyFree post _ hpost]
      dsimp only
      rw [hmidmem] at hgt
      omega
    · rw [if_neg hgt]
      rw [foldl_memory_of_memKeyFree post _ hpost]
      rw [hmidmem] at hgt ⊢
      omega
  refine ⟨hmem, fun hmeta hbox hsetup hcc hrun hrr => ?_⟩
  unfold ExecuteM
  rw [hbox, hsetup]
  rw [if_neg (by simp [hcc])]
  unfold executeRun runJobM
  rw [if_neg hrun]
  cases hr : env.runResult with
  | none =>
    rw [hmeta]
    dsimp only
    exact hmem
  | some rf =>
    cases rf with
    | deadlineExceeded =>
      rw [hmeta]
      dsimp only
      exact hmem
    | failed msg => exact absurd hr (hrr msg)

/-- C2 witness: the amended statement applied to a concrete metadata file
with max-rss:100 before cg-mem:200 and a concrete interpreted job, with
every hypothesis discharged there. -/
theorem c2_memory_witness :
    (readMetadataLines ["time:0.1", "max-rss:100", "status:OK", "cg-mem:200"]).Memory
      = max (parseUintGo "100") (parseUintGo "200") ∧
    (ExecuteM
        { metadata := .ok ["time:0.1", "max-rss:100", "status:OK", "cg-mem:200"],
          runResult := none }
        { Language := { RunCmd := "run" } }).job.Output.Memory
      = max (parseUintGo "100") (parseUintGo "200") := by
  have h := c2_memory_amended
    { metadata := .ok ["time:0.1", "max-rss:100", "status:OK", "cg-mem:200"],
      runResult := none }
    { Language := { RunCmd := "run" } }
    ["time:0.1"] ["status:OK"] [] "max-rss:100" "cg-mem:200"
    "100".data "200".data
    (by decide) (by decide)
    (by intro l hl; simp at hl; subst hl; decide)
    (by intro l hl; simp at hl)
  exact ⟨h.1, h.2 rfl rfl rfl rfl (by decide) (by intro msg h; cases h)⟩

/-- Helper: the run/classify tail of Execute either returns a nil error
or an InternalError status — never a terminal verdict with an error. -/
theorem executeRun_err_or_internal (env : ExecEnv) (job : Job)
    (tr : List ExecPhase) :
    (executeRun env job tr).err = none ∨
    (executeRun env job tr).status = ⟨StatusInternalError, ""⟩ := by
  unfold executeRun
  cases hr : runJobM env job with
  | none =>
    cases hm : env.metadata with
    | error e => right; rfl
    | ok lines => left; rfl
  | some rf =>
    cases rf with
    | deadlineExceeded =>
      cases hm : env.metadata with
      | error e => right; rfl
      | ok lines => left; rfl
    | failed msg => right; rfl

/-- Helper: Execute either returns a nil error or an InternalError
status. -/
theorem executeM_err_or_internal (env : ExecEnv) (job : Job) :
    (ExecuteM env job).err = none ∨
    (ExecuteM env job).status = ⟨StatusInternalError, ""⟩ := by
  unfold ExecuteM
  cases hb : env.boxError with
  | some e => right; rfl
  | none =>
    cases hs : env.setupError with
    | some e => right; rfl
    | none =>
      by_cases hc : job.Language.CompileCmd ≠ ""
      · rw [if_pos hc]
        dsimp only
        cases he : (compileJobM env job).2.2 with
        | some e => right; rfl
        | none =>
          by_cases hk : (compileJobM env job).2.1.Kind = StatusCompilationError
          · rw [if_pos hk]
            left; rfl
          · rw [if_neg hk]
            exact executeRun_err_or_internal env (compileJobM env job).1 _
      · rw [if_neg hc]
        exact executeRun_err_or_internal env job _

/-- C5: for every popped job, the worker invokes the Executor at most
defaultRetries = 3 times, with a one-second delay between consecutive
attempts; it stops as soon as the Executor returns a nil error; terminal
verdicts (CompilationError, WrongAnswer, TimeLimitExceeded,
RuntimeError) produce nil errors so they are never retried; and a
persistently failing executor is invoked exactly 3 times. -/
theorem c5_retry_policy :
    (∀ f, execCount f ≤ defaultRetries) ∧
    (∀ f k, k < defaultRetries → f k = none → (∀ i, i < k → f i ≠ none) →
      execCount f = k + 1) ∧
    (∀ f, (∀ i, i < defaultRetries → f i ≠ none) →
      execCount f = defaultRetries) ∧
    (∀ f, (processJobEvents f).filter (fun e => isExecEvent e || isSleepEvent e)
      = List.intersperse WorkerEvent.sleepOneSec
          ((List.range (execCount f)).map WorkerEvent.execute)) ∧
    (∀ (env : ExecEnv) (job : Job),
      ((ExecuteM env job).status.Kind = StatusCompilationError ∨
       (ExecuteM env job).status.Kind = StatusWrongAnswer ∨
       (ExecuteM env job).status.Kind = StatusTimeLimitExceeded ∨
       (ExecuteM env job).status.Kind = StatusRuntimeError) →
      (ExecuteM env job).err = none) := by
  refine ⟨fun f => ?_, fun f k hk hfk hprev => ?_, fun f h => ?_, fun f => ?_,
    fun env job h => ?_⟩
  · cases h0 : f 0 <;> cases h1 : f 1 <;> cases h2 : f 2 <;>
      simp [execCount, processJobEvents, processFrom, defaultRetries,
        h0, h1, h2, isExecEvent]
  · unfold defaultRetries at hk
    interval_cases k
    · simp [execCount, processJobEvents, processFrom, defaultRetries,
        hfk, isExecEvent]
    · cases h0 : f 0 with
      | none => exact absurd h0 (hprev 0 (by omega))
      | some e0 =>
        simp [execCount, processJobEvents, processFrom, defaultRetries,
          h0, hfk, isExecEvent]
    · cases h0 : f 0 with
      | none => exact absurd h0 (hprev 0 (by omega))
      | some e0 =>
        cases h1 : f 1 with
        | none => exact absurd h1 (hprev 1 (by omega))
        | some e1 =>
          simp [execCount, processJobEvents, processFrom, defaultRetries,
            h0, h1, hfk, isExecEvent]
  · cases h0 : f 0 with
    | none => exact absurd h0 (h 0 (by decide))
    | some e0 =>
      cases h1 : f 1 with
      | none => exact absurd h1 (h 1 (by decide))
      | some e1 =>
        cases h2 : f 2 with
        | none => exact absurd h2 (h 2 (by decide))
        | some e2 =>
          simp [execCount, processJobEvents, processFrom, defaultRetries,
            h0, h1, h2, isExecEvent]
  · cases h0 : f 0 <;> cases h1 : f 1 <;> cases h2 : f 2 <;>
      simp [execCount, processJobEvents, processFrom, defaultRetries,
        h0, h1, h2, isExecEvent, isSleepEvent, List.intersperse,
        List.range_succ]
  · rcases executeM_err_or_internal env job with he | hs
    · exact he
    · have hk := congrArg JobStatus.Kind hs
      rcases h with h | h | h | h <;> rw [h] at hk <;>
        exact absurd hk (by decide)

/-- C5 witness: a persistently failing executor behaviour is invoked
exactly three times, with the retry theorem's hypotheses discharged at a
concrete behaviour. -/
theorem c5_retry_witness : execCount (fun _ => some "infra down") = 3 :=
  c5_retry_policy.2.2.1 (fun _ => some "infra down")
    (fun i _ h => by cases h)

/-- Helper: when the compile subprocess fails, compileJob yields a
CompilationError status with a nil error and mirrors a non-empty
compileOutput into the message. -/
theorem compileJobM_fail (env : ExecEnv) (job : Job)
    (hf : goFields job.Language.CompileCmd ≠ [])
    (hfail : env.compileExecFailed = true) :
    (compileJobM env job).2.1 = ⟨StatusCompilationError, ""⟩ ∧
    (compileJobM env job).2.2 = none ∧
    ((compileJobM env job).1.Output.CompileOutput ≠ "" →
      (compileJobM env job).1.Output.Message
        = (compileJobM env job).1.Output.CompileOutput) := by
  unfold compileJobM
  rw [if_neg hf]
  dsimp only
  rw [if_pos hfail]
  by_cases hco : env.compileOutputFile = ""
  · rw [if_neg (not_not_intro hco), if_pos hco]
    by_cases hm : trimSpace env.compileCombinedOutput ≠ ""
    · rw [if_pos hm]
      exact ⟨rfl, rfl, fun _ => rfl⟩
    · rw [if_neg hm]
      rw [not_not] at hm
      exact ⟨rfl, rfl, fun h => absurd hm h⟩
  · rw [if_pos hco, if_neg hco, if_pos hco]
    exact ⟨rfl, rfl, fun _ => rfl⟩

/-- C6: for every job whose language.compileCmd is non-empty (and
whitespace-splits into a non-empty command), if the compile subprocess
exits non-zero then Compile returns a CompilationError status with a nil
Go error, the Executor sets status = CompilationError, stamps
finishedAt, returns success (nil error, so no retry), the run phase is
never executed, and a non-empty compileOutput is mirrored into
output.message. -/
theorem c6_compile_error_short_circuits :
    ∀ (env : ExecEnv) (job : Job),
    job.Language.CompileCmd ≠ "" →
    goFields job.Language.CompileCmd ≠ [] →
    env.boxError = none → env.setupError = none →
    env.compileExecFailed = true →
    (compileJobM env job).2.1 = ⟨StatusCompilationError, ""⟩ ∧
    (compileJobM env job).2.2 = none ∧
    (ExecuteM env job).status = ⟨StatusCompilationError, ""⟩ ∧
    (ExecuteM env job).job.Status = ⟨StatusCompilationError, ""⟩ ∧
    (ExecuteM env job).err = none ∧
    (ExecuteM env job).job.FinishedAt = env.now ∧
    ExecPhase.run ∉ (ExecuteM env job).phases ∧
    ((ExecuteM env job).job.Output.CompileOutput ≠ "" →
      (ExecuteM env job).job.Output.Message
        = (ExecuteM env job).job.Output.CompileOutput) := by
  intro env job hcmd hf hbox hsetup hfail
  obtain ⟨hcj1, hcj2, hcj3⟩ := compileJobM_fail env job hf hfail
  have hEx : ExecuteM env job =
      { job := { (compileJobM env job).1 with
          Status := (compileJobM env job).2.1, FinishedAt := env.now }
        status := (compileJobM env job).2.1
        err := none
        phases := [.box, .setup, .compile] } := by
    unfold ExecuteM
    rw [hbox, hsetup]
    dsimp only
    rw [if_pos hcmd]
    rw [hcj2]
    dsimp only
    rw [if_pos (by rw [hcj1])]
  rw [hEx]
  refine ⟨hcj1, hcj2, hcj1, by dsimp only; rw [hcj1], rfl, rfl,
    by dsimp only; decide, ?_⟩
  dsimp only
  exact hcj3

/-- C6 witness: the short-circuit theorem applied to a concrete compiled
job whose compile subprocess fails, hypotheses discharged there. -/
theorem c6_compile_error_witness :
    (ExecuteM
        { compileExecFailed := true, compileCombinedOutput := "main.c: error",
          now := 7 }
        { Language := { CompileCmd := "gcc main.c", RunCmd := "./a.out" } }).status
      = ⟨StatusCompilationError, ""⟩ ∧
    (ExecuteM
        { compileExecFailed := true, compileCombinedOutput := "main.c: error",
          now := 7 }
        { Language := { CompileCmd := "gcc main.c", RunCmd := "./a.out" } }).err
      = none ∧
    ExecPhase.run ∉ (ExecuteM
        { compileExecFailed := true, compileCombinedOutput := "main.c: error",
          now := 7 }
        { Language := { CompileCmd := "gcc main.c", RunCmd := "./a.out" } }).phases := by
  have h := c6_compile_error_short_circuits
    { compileExecFailed := true, compileCombinedOutput := "main.c: error",
      now := 7 }
    { Language := { CompileCmd := "gcc main.c", RunCmd := "./a.out" } }
    (by decide) (by decide) rfl rfl rfl
  exact ⟨h.2.2.1, h.2.2.2.2.1, h.2.2.2.2.2.2.1⟩

/-- Helper: every branch of the signal classifier is a RuntimeError. -/
theorem findRuntimeType_kind (e : Int) :
    (findRuntimeType e).Kind = StatusRuntimeError := by
  unfold findRuntimeType
  by_cases h11 : e = 11
  · rw [if_pos h11]
  · rw [if_neg h11]
    by_cases h25 : e = 25
    · rw [if_pos h25]
    · rw [if_neg h25]
      by_cases h8 : e = 8
      · rw [if_pos h8]
      · rw [if_neg h8]
        by_cases h6 : e = 6
        · rw [if_pos h6]
        · rw [if_neg h6]

/-- Helper: the classifier never yields a CompilationError. -/
theorem determineStatus_kind_ne_compilation (s : String) (e : Int)
    (o x : String) :
    (DetermineStatus s e o x).Kind ≠ StatusCompilationError := by
  unfold DetermineStatus
  by_cases hTO : s = "TO"
  · rw [if_pos hTO]; decide
  · rw [if_neg hTO]
    by_cases hSG : s = "SG"
    · rw [if_pos hSG]
      rw [findRuntimeType_kind e]
      decide
    · rw [if_neg hSG]
      by_cases hRE : s = "RE"
      · rw [if_pos hRE]; decide
      · rw [if_neg hRE]
        by_cases hXX : s = "XX"
        · rw [if_pos hXX]; decide
        · rw [if_neg hXX]
          by_cases hacc : x = "" ∨ trimSpace o = trimSpace x
          · rw [if_pos hacc]; decide
          · rw [if_neg hacc]; decide

/-- Helper: the InternalError kind is not the CompilationError kind. -/
theorem internal_ne_compilation : StatusInternalError ≠ StatusCompilationError := by
  decide

/-- Helper: the run/classify tail never yields a CompilationError status,
either on the returned status or on the job. -/
theorem executeRun_kind_ne_compilation (env : ExecEnv) (job : Job)
    (tr : List ExecPhase) :
    (executeRun env job tr).status.Kind ≠ StatusCompilationError ∧
    (executeRun env job tr).job.Status.Kind ≠ StatusCompilationError := by
  unfold executeRun
  cases hr : runJobM env job with
  | none =>
    cases hm : env.metadata with
    | error e => exact ⟨internal_ne_compilation, internal_ne_compilation⟩
    | ok lines =>
      dsimp only
      exact ⟨determineStatus_kind_ne_compilation _ _ _ _,
        determineStatus_kind_ne_compilation _ _ _ _⟩
  | some rf =>
    cases rf with
    | deadlineExceeded =>
      cases hm : env.metadata with
      | error e => exact ⟨internal_ne_compilation, internal_ne_compilation⟩
      | ok lines =>
        dsimp only
        exact ⟨determineStatus_kind_ne_compilation _ _ _ _,
          determineStatus_kind_ne_compilation _ _ _ _⟩
    | failed msg => exact ⟨internal_ne_compilation, internal_ne_compilation⟩

/-- C10: for every job whose language.compileCmd is the empty string
(interpreted language), Execute never produces a CompilationError status
— neither as the returned status nor on the job — and when reading
outputs back it forces output.compileOutput to the empty string. -/
theorem c10_interpreted_no_compilation_error :
    ∀ (env : ExecEnv) (job : Job),
    job.Language.CompileCmd = "" →
    (ExecuteM env job).status.Kind ≠ StatusCompilationError ∧
    (ExecuteM env job).job.Status.Kind ≠ StatusCompilationError ∧
    (readOutputsM env job).Output.CompileOutput = "" := by
  intro env job hcc
  have hro : (readOutputsM env job).Output.CompileOutput = "" := by
    unfold readOutputsM
    rw [if_neg (fun h => h.2 hcc), if_pos hcc]
  refine ⟨?_, ?_, hro⟩ <;>
  · unfold ExecuteM
    cases hb : env.boxError with
    | some e => exact internal_ne_compilation
    | none =>
      cases hs : env.setupError with
      | some e => exact internal_ne_compilation
      | none =>
        rw [if_neg (not_not_intro hcc)]
        first
          | exact (executeRun_kind_ne_compilation env job _).1
          | exact (executeRun_kind_ne_compilation env job _).2

/-- C10 witness: the theorem applied to a concrete interpreted job, with
the empty-compile-command hypothesis discharged there. -/
theorem c10_interpreted_witness :
    (ExecuteM { stdoutFile := "out" } { Language := { RunCmd := "python main.py" } }).status.Kind
      ≠ StatusCompilationError ∧
    (readOutputsM { stdoutFile := "out" }
      { Language := { RunCmd := "python main.py" } }).Output.CompileOutput = "" := by
  have h := c10_interpreted_no_compilation_error { stdoutFile := "out" }
    { Language := { RunCmd := "python main.py" } } rfl
  exact ⟨h.1, h.2.2⟩

/-- C4 witness: the enqueue theorem applied to a concrete empty store and
job 42 on the main queue: the stored job is retrievable by Get. -/
theorem c4_enqueue_witness :
    GetJob ((RedisState.kvSet {} (JobKey 42) (MarshalJob { ID := 42 })
      jobTTLSeconds).rpush "jobs" (Nat.repr 42)) 42 = .ok (some { ID := 42 }) :=
  (c4_enqueue_pipeline {} { ID := 42 } false).2.2.2.2.2.1
